import Mathlib

/-!
Verification of `gatherdata.py`, a utility that walks a directory tree,
collects the textual content of selected files (root-level `.cpp` files,
everything under `src`, everything under `assets/shaders`) using an ordered
multi-encoding decode fallback, and serializes the result to one markdown
document.

Python strings are modelled as lists of Unicode code points (`PyStr`),
file bytes as lists of naturals below 256.  The five codecs the script
tries (`utf-8`, `utf-16`, `cp1250`, `latin-1`, `cp1252`) are embedded as
byte-level decoders with exactly the acceptance behaviour of the CPython
codecs, and text-mode reading (`open(path, "r", encoding=...)` followed by
`read()`) is modelled as decoding followed by universal-newline
translation.
-/

namespace GatherData

/-- Python `str` values: sequences of Unicode code points. -/
abbrev PyStr := List Nat

/-- Interprets a Lean string literal as a `PyStr` (its code points). -/
def pstr (s : String) : PyStr := s.data.map Char.toNat

/-- Continuation byte test of the UTF-8 decoder: `0x80..0xBF`. -/
def isCont (b : Nat) : Bool := 0x80 ≤ b && b ≤ 0xBF

/-- Strict UTF-8 decoding as the CPython `utf-8` codec performs it:
rejects overlong forms, surrogate code points and code points above
`U+10FFFF`; returns the decoded code points or `none` on invalid input. -/
def utf8Decode : List Nat → Option (List Nat)
  | [] => some []
  | b0 :: rest =>
    if b0 ≤ 0x7F then (utf8Decode rest).map (fun t => b0 :: t)
    else if b0 < 0xC2 then none
    else if b0 ≤ 0xDF then
      match rest with
      | b1 :: rest1 =>
        if isCont b1 then (utf8Decode rest1).map (fun t => ((b0 - 0xC0) * 0x40 + (b1 - 0x80)) :: t)
        else none
      | [] => none
    else if b0 ≤ 0xEF then
      match rest with
      | b1 :: b2 :: rest2 =>
        let okB1 : Bool :=
          if b0 = 0xE0 then 0xA0 ≤ b1 && b1 ≤ 0xBF
          else if b0 = 0xED then 0x80 ≤ b1 && b1 ≤ 0x9F
          else isCont b1
        if okB1 && isCont b2 then
          (utf8Decode rest2).map (fun t => ((b0 - 0xE0) * 0x1000 + (b1 - 0x80) * 0x40 + (b2 - 0x80)) :: t)
        else none
      | _ => none
    else if b0 ≤ 0xF4 then
      match rest with
      | b1 :: b2 :: b3 :: rest3 =>
        let okB1 : Bool :=
          if b0 = 0xF0 then 0x90 ≤ b1 && b1 ≤ 0xBF
          else if b0 = 0xF4 then 0x80 ≤ b1 && b1 ≤ 0x8F
          else isCont b1
        if okB1 && isCont b2 && isCont b3 then
          (utf8Decode rest3).map (fun t =>
            ((b0 - 0xF0) * 0x40000 + (b1 - 0x80) * 0x1000 + (b2 - 0x80) * 0x40 + (b3 - 0x80)) :: t)
        else none
      | _ => none
    else none

/-- Combines one little- or big-endian byte pair into a UTF-16 code unit. -/
def utf16Unit (le : Bool) (b0 b1 : Nat) : Nat := if le then b0 + 0x100 * b1 else 0x100 * b0 + b1

/-- Splits a byte list into UTF-16 code units; fails on odd length
(CPython raises "truncated data"). -/
def utf16Units (le : Bool) : List Nat → Option (List Nat)
  | [] => some []
  | [_] => none
  | b0 :: b1 :: rest => (utf16Units le rest).map (fun t => utf16Unit le b0 b1 :: t)

/-- High-surrogate code unit test: `0xD800..0xDBFF`. -/
def isHighSurrogate (u : Nat) : Bool := 0xD800 ≤ u && u ≤ 0xDBFF

/-- Low-surrogate code unit test: `0xDC00..0xDFFF`. -/
def isLowSurrogate (u : Nat) : Bool := 0xDC00 ≤ u && u ≤ 0xDFFF

/-- Pairs UTF-16 surrogates into code points; any unpaired surrogate is an
error, as in the CPython `utf-16` codec. -/
def combineSurrogates : List Nat → Option (List Nat)
  | [] => some []
  | u :: rest =>
    if isHighSurrogate u then
      match rest with
      | v :: rest2 =>
        if isLowSurrogate v then
          (combineSurrogates rest2).map (fun t => (0x10000 + (u - 0xD800) * 0x400 + (v - 0xDC00)) :: t)
        else none
      | [] => none
    else if isLowSurrogate u then none
    else (combineSurrogates rest).map (fun t => u :: t)

/-- UTF-16 decoding as the CPython `utf-16` codec performs it on a
little-endian host: a leading `FF FE` or `FE FF` byte-order mark selects
little- or big-endian and is consumed; without a mark the input is decoded
little-endian (the native order the script runs under). -/
def utf16Decode (bytes : List Nat) : Option (List Nat) :=
  match bytes with
  | 0xFF :: 0xFE :: rest => (utf16Units true rest).bind combineSurrogates
  | 0xFE :: 0xFF :: rest => (utf16Units false rest).bind combineSurrogates
  | rest => (utf16Units true rest).bind combineSurrogates

/-- High-byte (0x80-0xFF) decode table of the Python `cp1250` codec: `none` marks bytes the codec rejects. -/
def cp1250Table (b : Nat) : Option Nat :=
  match b with
  | 128 => some 8364
  | 129 => none
  | 130 => some 8218
  | 131 => none
  | 132 => some 8222
  | 133 => some 8230
  | 134 => some 8224
  | 135 => some 8225
  | 136 => none
  | 137 => some 8240
  | 138 => some 352
  | 139 => some 8249
  | 140 => some 346
  | 141 => some 356
  | 142 => some 381
  | 143 => some 377
  | 144 => none
  | 145 => some 8216
  | 146 => some 8217
  | 147 => some 8220
  | 148 => some 8221
  | 149 => some 8226
  | 150 => some 8211
  | 151 => some 8212
  | 152 => none
  | 153 => some 8482
  | 154 => some 353
  | 155 => some 8250
  | 156 => some 347
  | 157 => some 357
  | 158 => some 382
  | 159 => some 378
  | 160 => some 160
  | 161 => some 711
  | 162 => some 728
  | 163 => some 321
  | 164 => some 164
  | 165 => some 260
  | 166 => some 166
  | 167 => some 167
  | 168 => some 168
  | 169 => some 169
  | 170 => some 350
  | 171 => some 171
  | 172 => some 172
  | 173 => some 173
  | 174 => some 174
  | 175 => some 379
  | 176 => some 176
  | 177 => some 177
  | 178 => some 731
  | 179 => some 322
  | 180 => some 180
  | 181 => some 181
  | 182 => some 182
  | 183 => some 183
  | 184 => some 184
  | 185 => some 261
  | 186 => some 351
  | 187 => some 187
  | 188 => some 317
  | 189 => some 733
  | 190 => some 318
  | 191 => some 380
  | 192 => some 340
  | 193 => some 193
  | 194 => some 194
  | 195 => some 258
  | 196 => some 196
  | 197 => some 313
  | 198 => some 262
  | 199 => some 199
  | 200 => some 268
  | 201 => some 201
  | 202 => some 280
  | 203 => some 203
  | 204 => some 282
  | 205 => some 205
  | 206 => some 206
  | 207 => some 270
  | 208 => some 272
  | 209 => some 323
  | 210 => some 327
  | 211 => some 211
  | 212 => some 212
  | 213 => some 336
  | 214 => some 214
  | 215 => some 215
  | 216 => some 344
  | 217 => some 366
  | 218 => some 218
  | 219 => some 368
  | 220 => some 220
  | 221 => some 221
  | 222 => some 354
  | 223 => some 223
  | 224 => some 341
  | 225 => some 225
  | 226 => some 226
  | 227 => some 259
  | 228 => some 228
  | 229 => some 314
  | 230 => some 263
  | 231 => some 231
  | 232 => some 269
  | 233 => some 233
  | 234 => some 281
  | 235 => some 235
  | 236 => some 283
  | 237 => some 237
  | 238 => some 238
  | 239 => some 271
  | 240 => some 273
  | 241 => some 324
  | 242 => some 328
  | 243 => some 243
  | 244 => some 244
  | 245 => some 337
  | 246 => some 246
  | 247 => some 247
  | 248 => some 345
  | 249 => some 367
  | 250 => some 250
  | 251 => some 369
  | 252 => some 252
  | 253 => some 253
  | 254 => some 355
  | 255 => some 729
  | _ => none

/-- High-byte (0x80-0xFF) decode table of the Python `cp1252` codec: `none` marks bytes the codec rejects. -/
def cp1252Table (b : Nat) : Option Nat :=
  match b with
  | 128 => some 8364
  | 129 => none
  | 130 => some 8218
  | 131 => some 402
  | 132 => some 8222
  | 133 => some 8230
  | 134 => some 8224
  | 135 => some 8225
  | 136 => some 710
  | 137 => some 8240
  | 138 => some 352
  | 139 => some 8249
  | 140 => some 338
  | 141 => none
  | 142 => some 381
  | 143 => none
  | 144 => none
  | 145 => some 8216
  | 146 => some 8217
  | 147 => some 8220
  | 148 => some 8221
  | 149 => some 8226
  | 150 => some 8211
  | 151 => some 8212
  | 152 => some 732
  | 153 => some 8482
  | 154 => some 353
  | 155 => some 8250
  | 156 => some 339
  | 157 => none
  | 158 => some 382
  | 159 => some 376
  | 160 => some 160
  | 161 => some 161
  | 162 => some 162
  | 163 => some 163
  | 164 => some 164
  | 165 => some 165
  | 166 => some 166
  | 167 => some 167
  | 168 => some 168
  | 169 => some 169
  | 170 => some 170
  | 171 => some 171
  | 172 => some 172
  | 173 => some 173
  | 174 => some 174
  | 175 => some 175
  | 176 => some 176
  | 177 => some 177
  | 178 => some 178
  | 179 => some 179
  | 180 => some 180
  | 181 => some 181
  | 182 => some 182
  | 183 => some 183
  | 184 => some 184
  | 185 => some 185
  | 186 => some 186
  | 187 => some 187
  | 188 => some 188
  | 189 => some 189
  | 190 => some 190
  | 191 => some 191
  | 192 => some 192
  | 193 => some 193
  | 194 => some 194
  | 195 => some 195
  | 196 => some 196
  | 197 => some 197
  | 198 => some 198
  | 199 => some 199
  | 200 => some 200
  | 201 => some 201
  | 202 => some 202
  | 203 => some 203
  | 204 => some 204
  | 205 => some 205
  | 206 => some 206
  | 207 => some 207
  | 208 => some 208
  | 209 => some 209
  | 210 => some 210
  | 211 => some 211
  | 212 => some 212
  | 213 => some 213
  | 214 => some 214
  | 215 => some 215
  | 216 => some 216
  | 217 => some 217
  | 218 => some 218
  | 219 => some 219
  | 220 => some 220
  | 221 => some 221
  | 222 => some 222
  | 223 => some 223
  | 224 => some 224
  | 225 => some 225
  | 226 => some 226
  | 227 => some 227
  | 228 => some 228
  | 229 => some 229
  | 230 => some 230
  | 231 => some 231
  | 232 => some 232
  | 233 => some 233
  | 234 => some 234
  | 235 => some 235
  | 236 => some 236
  | 237 => some 237
  | 238 => some 238
  | 239 => some 239
  | 240 => some 240
  | 241 => some 241
  | 242 => some 242
  | 243 => some 243
  | 244 => some 244
  | 245 => some 245
  | 246 => some 246
  | 247 => some 247
  | 248 => some 248
  | 249 => some 249
  | 250 => some 250
  | 251 => some 251
  | 252 => some 252
  | 253 => some 253
  | 254 => some 254
  | 255 => some 255
  | _ => none


/-- Decodes a byte list with a per-byte table, failing as soon as one byte
is rejected; this is how the single-byte codecs behave. -/
def mapDecode (table : Nat → Option Nat) : List Nat → Option (List Nat)
  | [] => some []
  | b :: rest =>
    match table b with
    | some c => (mapDecode table rest).map (fun t => c :: t)
    | none => none

/-- Single-byte decode table of the CPython `cp1250` codec: bytes below
`0x80` are ASCII, the rest follow `cp1250Table`. -/
def cp1250Byte (b : Nat) : Option Nat := if b < 0x80 then some b else cp1250Table b

/-- Single-byte decode table of the CPython `cp1252` codec. -/
def cp1252Byte (b : Nat) : Option Nat := if b < 0x80 then some b else cp1252Table b

/-- Single-byte decode table of the CPython `latin-1` codec: every byte
`0..255` maps to the code point of the same value, so no byte is ever
rejected. -/
def latin1Byte (b : Nat) : Option Nat := if b ≤ 0xFF then some b else none

/-- The five candidate encodings `_try_read_file` iterates over. -/
inductive Encoding where
  | utf8
  | utf16
  | cp1250
  | latin1
  | cp1252
deriving DecidableEq, Repr

/-- Human-readable label of each candidate, exactly the second component of
the pairs in `encodings_to_try` in the script. -/
def encName : Encoding → String
  | .utf8 => "UTF-8"
  | .utf16 => "UTF-16 (BOM-sensitive)"
  | .cp1250 => "CP1250 (Środkowoeuropejskie)"
  | .latin1 => "Latin-1 (ISO-8859-1)"
  | .cp1252 => "CP1252 (Zachodnioeuropejskie Windows)"

/-- The ordered candidate list of the script: utf-8, utf-16, cp1250,
latin-1, cp1252. -/
def encodings_to_try : List Encoding :=
  [.utf8, .utf16, .cp1250, .latin1, .cp1252]

/-- Raw byte decoding of one candidate codec. -/
def decodeBytes : Encoding → List Nat → Option (List Nat)
  | .utf8 => utf8Decode
  | .utf16 => utf16Decode
  | .cp1250 => mapDecode cp1250Byte
  | .latin1 => mapDecode latin1Byte
  | .cp1252 => mapDecode cp1252Byte

/-- Universal-newline translation that Python text-mode reading applies to
the decoded text: `\r\n` becomes `\n` and a lone `\r` becomes `\n`
(code points 13 and 10). -/
def univNewlines : List Nat → List Nat
  | [] => []
  | 13 :: 10 :: rest => 10 :: univNewlines rest
  | 13 :: rest => 10 :: univNewlines rest
  | c :: rest => c :: univNewlines rest

/-- Text-mode read of a byte sequence under one candidate encoding, as
`open(file_path, "r", encoding=...)` followed by `f.read()` performs it:
decode the bytes, then apply universal-newline translation; `none` models
the `UnicodeDecodeError` case. -/
def readDecode (e : Encoding) (bytes : List Nat) : Option (List Nat) :=
  (decodeBytes e bytes).map univNewlines

/-- Outcome of one per-candidate read attempt inside `_try_read_file`:
the decoded text, a `UnicodeDecodeError`, or any other exception (the
`except Exception as e` branch, e.g. permission denied). -/
inductive Attempt where
  | ok (text : List Nat)
  | decodeFailed
  | otherError (err : String)
deriving DecidableEq

/-- Result of `_try_read_file`: `content` models returning the decoded
string; `readError` models printing the per-file diagnostic (naming the
encoding label and the error) and returning `None` from the
non-decode-error branch; `decodeExhausted` models printing the
total-decode-failure diagnostic (naming every attempted encoding label)
and returning `None` after the loop. -/
inductive ReadResult where
  | content (text : List Nat)
  | readError (encLabel : String) (err : String)
  | decodeExhausted (triedLabels : List String)
deriving DecidableEq

/-- Value `_try_read_file` actually returns for each outcome: the decoded
string on success, `None` otherwise. -/
def ReadResult.toReturn : ReadResult → Option (List Nat)
  | .content t => some t
  | .readError _ _ => none
  | .decodeExhausted _ => none

/-- Tests whether a `ReadResult` is a successful decode. -/
def ReadResult.isContent : ReadResult → Bool
  | .content _ => true
  | .readError _ _ => false
  | .decodeExhausted _ => false

/-- The `for encoding_val, encoding_name in encodings_to_try` loop of
`_try_read_file`, generic in the outcome of each attempt: first success
returns its text, a `UnicodeDecodeError` falls through to the next
candidate, any other error aborts with a diagnostic, and an exhausted list
reports the full list of attempted labels. -/
def tryReadLoop (attempt : Encoding → Attempt) : List Encoding → ReadResult
  | [] => .decodeExhausted (encodings_to_try.map encName)
  | e :: rest =>
    match attempt e with
    | .ok text => .content text
    | .decodeFailed => tryReadLoop attempt rest
    | .otherError err => .readError (encName e) err

/-- Runs `_try_read_file` with an arbitrary per-candidate attempt outcome
(covering non-decode I/O errors as well as decodes). -/
def tryReadFileGen (attempt : Encoding → Attempt) : ReadResult :=
  tryReadLoop attempt encodings_to_try

/-- Attempt outcomes of a file whose bytes can be read without a
non-decode I/O error: each candidate either decodes them or raises
`UnicodeDecodeError`. -/
def bytesAttempt (bytes : List Nat) (e : Encoding) : Attempt :=
  match readDecode e bytes with
  | some t => .ok t
  | none => .decodeFailed

/-- The function `_try_read_file` applied to a readable file with the given
bytes. -/
def try_read_file (bytes : List Nat) : ReadResult :=
  tryReadFileGen (bytesAttempt bytes)

mutual
/-- Directory tree: the files of a directory (name and raw bytes) together
with its subdirectories, in the order `os.walk` lists them. -/
inductive FSTree where
  | node (files : List (PyStr × List Nat)) (dirs : DirList)
/-- Named subdirectories of a directory, in listing order. -/
inductive DirList where
  | nil
  | cons (name : PyStr) (tree : FSTree) (rest : DirList)
end

/-- Models `os.path.join(dir, name)` for a relative `name`: concatenation
with a single separator. -/
def pathJoin (dir name : PyStr) : PyStr := dir ++ pstr "/" ++ name

mutual
/-- Models `os.walk(root, topdown=True)` with unmodified `dirs`: yields the
root with its files, then recursively each subdirectory in order. -/
def walk (rootAbs : PyStr) : FSTree → List (PyStr × List (PyStr × List Nat))
  | .node files dirs => (rootAbs, files) :: walkDirs rootAbs dirs
/-- Walks each subdirectory of `walk` in listing order. -/
def walkDirs (rootAbs : PyStr) : DirList → List (PyStr × List (PyStr × List Nat))
  | .nil => []
  | .cons name tree rest => walk (pathJoin rootAbs name) tree ++ walkDirs rootAbs rest
end

/-- Models Python `s.startswith(pre)`: string-prefix test on code-point
sequences.  This is the test `gather_specified_files` applies to absolute
directory paths. -/
def startswith (s pre : PyStr) : Bool := pre.isPrefixOf s

/-- Models Python `s.endswith(suf)`. -/
def endswith (s suf : PyStr) : Bool := suf.isSuffixOf s

/-- Models `os.path.relpath(fileAbs, startAbs)` for the paths this walk
produces, all of which lie strictly below `startAbs`: the result drops the
leading `startAbs` plus the separator. -/
def relpathUnder (startAbs fileAbs : PyStr) : PyStr := fileAbs.drop (startAbs.length + 1)

/-- The `should_include` decision of `gather_specified_files` for a file
`name` listed in directory `rootAbs`: a root-level name ending in `.cpp`,
or a directory whose absolute path string starts with
`startAbs ++ "/src"`, or one whose absolute path string starts with
`startAbs ++ "/assets/shaders"` (the `if`/`elif` chain of the script,
including its use of plain string prefixes). -/
def shouldInclude (startAbs rootAbs name : PyStr) : Bool :=
  (rootAbs == startAbs && endswith name (pstr ".cpp"))
    || startswith rootAbs (pathJoin startAbs (pstr "src"))
    || startswith rootAbs (pathJoin (pathJoin startAbs (pstr "assets")) (pstr "shaders"))

/-- The function `gather_specified_files` on a filesystem `tree` rooted at
absolute path `startAbs` (the script computes `startAbs` as
`os.path.abspath(start_dir)`): walks the tree top-down, keeps the files
`should_include` accepts, reads each with `_try_read_file`, and inserts
`(relative path, content)` whenever the read returns content.  The
insertion-ordered dict is modelled as an association list in insertion
order. -/
def gather_specified_files (startAbs : PyStr) (tree : FSTree) : List (PyStr × List Nat) :=
  (walk startAbs tree).flatMap (fun entry =>
    entry.2.filterMap (fun f =>
      if shouldInclude startAbs entry.1 f.1 then
        match (try_read_file f.2).toReturn with
        | some content => some (relpathUnder startAbs (pathJoin entry.1 f.1), content)
        | none => none
      else none))

/-- The paths the selection logic of `gather_specified_files` yields,
before any file is read: each selected file's relative path paired with
its raw bytes, in walk order. -/
def selected_files (startAbs : PyStr) (tree : FSTree) : List (PyStr × List Nat) :=
  (walk startAbs tree).flatMap (fun entry =>
    entry.2.filterMap (fun f =>
      if shouldInclude startAbs entry.1 f.1 then
        some (relpathUnder startAbs (pathJoin entry.1 f.1), f.2)
      else none))

/-- Language tag chosen by `create_markdown_file` from the file path, the
exact `endswith` chain of the script. -/
def langTag (path : PyStr) : PyStr :=
  if endswith path (pstr ".cpp") || endswith path (pstr ".cxx") || endswith path (pstr ".cc") then
    pstr "cpp"
  else if endswith path (pstr ".h") || endswith path (pstr ".hpp") || endswith path (pstr ".hxx") then
    pstr "cpp"
  else if endswith path (pstr ".glsl") || endswith path (pstr ".frag") || endswith path (pstr ".vert")
      || endswith path (pstr ".shader") || endswith path (pstr ".geom") || endswith path (pstr ".tesc")
      || endswith path (pstr ".tese") then
    pstr "glsl"
  else if endswith path (pstr ".py") then pstr "python"
  else if endswith path (pstr ".js") then pstr "javascript"
  else if endswith path (pstr ".html") then pstr "html"
  else if endswith path (pstr ".css") then pstr "css"
  else pstr ""

/-- Text one loop iteration of `create_markdown_file` writes for one
mapping entry: heading, opening fence with language tag, the content, and
the closing fence with a blank separator line. -/
def fileSection (path content : PyStr) : PyStr :=
  pstr "## Plik: " ++ path ++ pstr "\n" ++
    pstr "```" ++ langTag path ++ pstr "\n" ++
    content ++ pstr "\n```\n\n"

/-- Full text `create_markdown_file` writes (UTF-8, `w` mode) for a
mapping, sections in mapping iteration order. -/
def create_markdown_file (file_data : List (PyStr × PyStr)) : PyStr :=
  file_data.flatMap (fun kv => fileSection kv.1 kv.2)

/-- Models the `__main__` block acting on the output file: gather from the
start directory; if the gathered dict is non-empty (Python truthiness),
write the markdown document, replacing whatever was at the output path;
otherwise print a message and leave the previous output file, if any,
untouched.  Returns the state of the output file after the run. -/
def mainOutputFile (startAbs : PyStr) (tree : FSTree) (previous : Option PyStr) : Option PyStr :=
  let all_gathered_files := gather_specified_files startAbs tree
  if all_gathered_files.isEmpty then previous
  else some (create_markdown_file all_gathered_files)

/-- Component-safe test that a relative path lies under directory `dir`:
it starts with `dir` followed by a separator. -/
def underDir (rel dir : PyStr) : Bool := startswith rel (dir ++ pstr "/")

/-- Inclusion rule as the specification states it, on the file's relative
path: a top-level file (no separator in the path) named `*.cpp`, or a file
anywhere under `src`, or a file anywhere under `assets/shaders` — with
"under" read per path component, so sibling directories such as `srcfoo`
do not qualify. -/
def specIncluded (rel : PyStr) : Bool :=
  (!(rel.contains 47) && endswith rel (pstr ".cpp"))
    || underDir rel (pstr "src")
    || underDir rel (pstr "assets/shaders")

/-- Root directory with a single sibling directory `srcfoo` (not `src`)
holding one file `x.txt` with ASCII bytes "hi". -/
def srcfooTree : FSTree :=
  .node [] (.cons (pstr "srcfoo") (.node [(pstr "x.txt", [104, 105])] .nil) .nil)

/-- Root directory whose `src` subdirectory holds one file `bad.bin`
consisting of the single byte `0x81`, which utf-8, utf-16, cp1250 and
cp1252 all reject. -/
def c2Tree : FSTree :=
  .node [] (.cons (pstr "src") (.node [(pstr "bad.bin", [129])] .nil) .nil)

/-- Root directory for the idempotence check: one root-level `.cpp` file
and one file under `src`. -/
def c8Tree : FSTree :=
  .node [(pstr "main.cpp", [104])] (.cons (pstr "src") (.node [(pstr "a.txt", [105])] .nil) .nil)

/-- Root directory with no matching files at all. -/
def c7Tree : FSTree := .node [] .nil

/-- Attempt outcomes of a file on which utf-8 raises a decode error and the
utf-16 attempt then fails with a permission error; later candidates would
succeed, which exhibits that they are never consulted. -/
def attemptPermDenied : Encoding → Attempt
  | .utf8 => .decodeFailed
  | .utf16 => .otherError "Permission denied"
  | _ => .ok []

/-- Attempt outcomes of a file whose utf-8 attempt succeeds while every
other candidate would fail hard; first success must win. -/
def attemptUtf8Wins : Encoding → Attempt
  | .utf8 => .ok [104]
  | _ => .otherError "never tried"

lemma tryReadLoop_append (attempt : Encoding → Attempt) (l1 l2 : List Encoding)
    (h : ∀ d ∈ l1, attempt d = .decodeFailed) :
    tryReadLoop attempt (l1 ++ l2) = tryReadLoop attempt l2 := by
  induction l1 with
  | nil => rfl
  | cons e rest ih =>
    have he : attempt e = .decodeFailed := h e (by simp)
    have hrest : ∀ d ∈ rest, attempt d = .decodeFailed := fun d hd => h d (by simp [hd])
    simp [tryReadLoop, he, ih hrest]

lemma mapDecode_latin1 (b : List Nat) (h : ∀ x ∈ b, x < 256) :
    mapDecode latin1Byte b = some b := by
  induction b with
  | nil => rfl
  | cons x rest ih =>
    have hx : x ≤ 0xFF := by have := h x (by simp); omega
    have hrest : ∀ y ∈ rest, y < 256 := fun y hy => h y (by simp [hy])
    simp [mapDecode, latin1Byte, hx, ih hrest]

lemma readDecode_latin1 (b : List Nat) (h : ∀ x ∈ b, x < 256) :
    readDecode .latin1 b = some (univNewlines b) := by
  simp [readDecode, decodeBytes, mapDecode_latin1 b h]

lemma filterMap_flatMap {α β γ : Type} (l : List α) (g : α → List β) (h : β → Option γ) :
    (l.flatMap g).filterMap h = l.flatMap (fun a => (g a).filterMap h) := by
  induction l with
  | nil => rfl
  | cons a rest ih => simp [List.flatMap_cons, List.filterMap_append, ih]

lemma gather_entry (startAbs rootAbs : PyStr) (files : List (PyStr × List Nat)) :
    files.filterMap (fun f =>
      if shouldInclude startAbs rootAbs f.1 then
        match (try_read_file f.2).toReturn with
        | some content => some (relpathUnder startAbs (pathJoin rootAbs f.1), content)
        | none => none
      else none)
    = (files.filterMap (fun f =>
        if shouldInclude startAbs rootAbs f.1 then
          some (relpathUnder startAbs (pathJoin rootAbs f.1), f.2)
        else none)).filterMap
        (fun p => ((try_read_file p.2).toReturn).map (fun c => (p.1, c))) := by
  induction files with
  | nil => rfl
  | cons f rest ih =>
    by_cases hinc : shouldInclude startAbs rootAbs f.1 = true
    · cases hr : (try_read_file f.2).toReturn with
      | some content => simp [List.filterMap_cons, hinc, hr, ih]
      | none => simp [List.filterMap_cons, hinc, hr, ih]
    · simp [List.filterMap_cons, hinc, ih]

/-- C1: the claim states that a file is collected if and only if it is a
top-level `.cpp` file, lies under `root/src`, or lies under
`root/assets/shaders`, and that sibling directories such as `srcfoo` are
excluded.  The code compares absolute directory paths with a plain string
`startswith`, so `/proj/srcfoo` passes the `/proj/src` test and the file
`srcfoo/x.txt` is collected even though the documented selection rule
(`specIncluded`) rejects it. -/
theorem c1_sibling_string_prefix_collected :
    gather_specified_files (pstr "/proj") srcfooTree = [(pstr "srcfoo/x.txt", [104, 105])] ∧
      specIncluded (pstr "srcfoo/x.txt") = false := by decide

/-- C2 counterexample: the single byte `0x81` is rejected by utf-8,
utf-16, cp1250 and cp1252 — every candidate capable of rejecting input —
yet `_try_read_file` does not report a total decode failure: latin-1,
tried fourth, accepts it, the reader returns its decoding, and the file is
present in the Collected Mapping. -/
theorem c2_total_failure_counterexample :
    readDecode .utf8 [129] = none ∧ readDecode .utf16 [129] = none ∧
      readDecode .cp1250 [129] = none ∧ readDecode .cp1252 [129] = none ∧
      try_read_file [129] = .content [129] ∧
      gather_specified_files (pstr "/p") c2Tree = [(pstr "src/bad.bin", [129])] := by decide

/-- C2 (amended): for every readable byte sequence rejected by utf-8,
utf-16 and cp1250, no total decode failure occurs: latin-1, tried before
cp1252, accepts it, and `_try_read_file` returns the latin-1 decoding
(the identity on bytes, up to newline translation), so the file is kept,
not skipped. -/
theorem c2_latin1_accepts_before_cp1252 (b : List Nat) (hb : ∀ x ∈ b, x < 256)
    (h8 : readDecode .utf8 b = none) (h16 : readDecode .utf16 b = none)
    (h50 : readDecode .cp1250 b = none) :
    try_read_file b = .content (univNewlines b) := by
  simp [try_read_file, tryReadFileGen, encodings_to_try, tryReadLoop, bytesAttempt,
    h8, h16, h50, readDecode_latin1 b hb]

/-- C2 witness: the amended theorem applied to the byte `0x81`. -/
theorem c2_witness : try_read_file [129] = .content (univNewlines [129]) :=
  c2_latin1_accepts_before_cp1252 [129] (by decide) (by decide) (by decide) (by decide)

/-- C3: for every file whose bytes are valid UTF-8, `_try_read_file`
succeeds on the first candidate and returns the UTF-8 text-mode decoding;
and generically, whenever the utf-8 attempt succeeds, the result is its
text no matter how the later candidates would behave — they are never
tried. -/
theorem c3_first_success_wins (b t : List Nat) (attempt : Encoding → Attempt) (s : List Nat)
    (hb : readDecode .utf8 b = some t) (ha : attempt .utf8 = .ok s) :
    try_read_file b = .content t ∧ tryReadFileGen attempt = .content s := by
  constructor
  · simp [try_read_file, tryReadFileGen, encodings_to_try, tryReadLoop, bytesAttempt, hb]
  · simp [tryReadFileGen, encodings_to_try, tryReadLoop, ha]

/-- C3 witness: ASCII bytes "hi" decode as utf-8 and win immediately, also
under an attempt in which every later candidate would fail hard. -/
theorem c3_witness :
    try_read_file [104, 105] = .content [104, 105] ∧
      tryReadFileGen attemptUtf8Wins = .content [104] :=
  c3_first_success_wins [104, 105] [104, 105] attemptUtf8Wins [104] (by decide) (by decide)

/-- C4: if some candidate's read attempt fails with a non-decode error
after the earlier candidates failed with decode errors, `_try_read_file`
aborts at that candidate: the result is the diagnostic-carrying error
outcome naming that encoding's label and the error, the returned value is
`None`, and — since the attempt outcomes of all later candidates are
unconstrained — no further encoding is tried. -/
theorem c4_other_error_aborts (attempt : Encoding → Attempt) (pre post : List Encoding)
    (e : Encoding) (err : String)
    (hsplit : encodings_to_try = pre ++ e :: post)
    (hpre : ∀ d ∈ pre, attempt d = .decodeFailed)
    (herr : attempt e = .otherError err) :
    tryReadFileGen attempt = .readError (encName e) err ∧
      (tryReadFileGen attempt).toReturn = none := by
  have hmain : tryReadFileGen attempt = .readError (encName e) err := by
    show tryReadLoop attempt encodings_to_try = _
    rw [hsplit, tryReadLoop_append attempt pre (e :: post) hpre]
    simp [tryReadLoop, herr]
  exact ⟨hmain, by rw [hmain]; rfl⟩

/-- C4 witness: utf-8 fails to decode, the utf-16 attempt hits a
permission error, and the run aborts with utf-16's label even though every
later candidate would have succeeded. -/
theorem c4_witness :
    tryReadFileGen attemptPermDenied = .readError "UTF-16 (BOM-sensitive)" "Permission denied" ∧
      (tryReadFileGen attemptPermDenied).toReturn = none :=
  c4_other_error_aborts attemptPermDenied [.utf8] [.cp1250, .latin1, .cp1252] .utf16
    "Permission denied" (by decide) (by decide) (by decide)

/-- C5: the Collector equals the reader mapped over the selector output —
an entry `(path, content)` is inserted exactly when `_try_read_file`
returns content for a selected path, paths whose read returns `None` are
omitted entirely, and the (total) function always returns the resulting
mapping. -/
theorem c5_collector_filters_reader (startAbs : PyStr) (tree : FSTree) :
    gather_specified_files startAbs tree =
      (selected_files startAbs tree).filterMap
        (fun p => ((try_read_file p.2).toReturn).map (fun c => (p.1, c))) := by
  rw [gather_specified_files, selected_files, filterMap_flatMap]
  exact congrArg _ (funext fun entry => gather_entry startAbs entry.1 entry.2)

/-- C6: on the mapping `a.cpp` to `int x;` and `b.frag` to
`void main(){}`, the emitter produces the heading and `cpp`-tagged fenced
block for `a.cpp` followed by the heading and `glsl`-tagged fenced block
for `b.frag`, the bodies exactly the mapped contents, in mapping order. -/
theorem c6_emitter_sections :
    create_markdown_file
        [(pstr "a.cpp", pstr "int x;"), (pstr "b.frag", pstr "void main()\x7b\x7d")] =
      pstr "## Plik: a.cpp\n```cpp\nint x;\n```\n\n## Plik: b.frag\n```glsl\nvoid main()\x7b\x7d\n```\n\n" := by
  decide

/-- C7 counterexample: on a run whose Collected Mapping is empty the entry
point does not create the document at all — a stale previous output file
survives unchanged, although the (empty) fresh document would have been
the empty text. -/
theorem c7_empty_run_keeps_stale_file :
    mainOutputFile (pstr "/p") c7Tree (some (pstr "stale")) = some (pstr "stale") ∧
      create_markdown_file [] = [] ∧ pstr "stale" ≠ [] := by decide

/-- C7 (amended): the Output Document is created fresh, overwriting any
prior file, exactly on the runs whose Collected Mapping is non-empty; on a
run that collects zero files no document is written and the prior output
file, if any, is left in place. -/
theorem c7_written_iff_nonempty (startAbs : PyStr) (tree : FSTree) (previous : Option PyStr) :
    mainOutputFile startAbs tree previous =
      if gather_specified_files startAbs tree = [] then previous
      else some (create_markdown_file (gather_specified_files startAbs tree)) := by
  unfold mainOutputFile
  cases h : gather_specified_files startAbs tree with
  | nil => simp [h]
  | cons a l => simp [h]

/-- C8: two runs of the Collector over the same unchanged tree yield
mappings with identical key sequences and identical content per key (the
mappings are equal). -/
theorem c8_idempotent (startAbs : PyStr) (tree : FSTree) (m1 m2 : List (PyStr × List Nat))
    (h1 : m1 = gather_specified_files startAbs tree)
    (h2 : m2 = gather_specified_files startAbs tree) :
    m1.map Prod.fst = m2.map Prod.fst ∧ m1 = m2 := by
  subst h1; subst h2; exact ⟨rfl, rfl⟩

/-- C8 witness: two runs over the concrete tree `c8Tree`. -/
theorem c8_witness :
    (gather_specified_files (pstr "/p") c8Tree).map Prod.fst =
        (gather_specified_files (pstr "/p") c8Tree).map Prod.fst ∧
      gather_specified_files (pstr "/p") c8Tree = gather_specified_files (pstr "/p") c8Tree :=
  c8_idempotent (pstr "/p") c8Tree _ _ rfl rfl

/-- C9: the empty byte sequence decodes under the first candidate (utf-8)
to the empty string, and `_try_read_file` returns the empty string — an
empty file is neither a decode failure nor skipped. -/
theorem c9_empty_file :
    readDecode .utf8 [] = some [] ∧ try_read_file [] = .content [] := by decide

/-- C10: for every readable byte sequence some candidate succeeds — the
total-decode-failure branch is unreachable because latin-1 accepts every
byte — so `_try_read_file` returns decoded content. -/
theorem c10_total_failure_unreachable (b : List Nat) (h : ∀ x ∈ b, x < 256) :
    (try_read_file b).isContent = true := by
  cases h8 : readDecode .utf8 b with
  | some t =>
    simp [try_read_file, tryReadFileGen, encodings_to_try, tryReadLoop, bytesAttempt, h8,
      ReadResult.isContent]
  | none =>
    cases h16 : readDecode .utf16 b with
    | some t =>
      simp [try_read_file, tryReadFileGen, encodings_to_try, tryReadLoop, bytesAttempt, h8, h16,
        ReadResult.isContent]
    | none =>
      cases h50 : readDecode .cp1250 b with
      | some t =>
        simp [try_read_file, tryReadFileGen, encodings_to_try, tryReadLoop, bytesAttempt, h8, h16,
          h50, ReadResult.isContent]
      | none =>
        simp [try_read_file, tryReadFileGen, encodings_to_try, tryReadLoop, bytesAttempt, h8, h16,
          h50, readDecode_latin1 b h, ReadResult.isContent]

/-- C10 witness: the byte `0x81`, invalid for every rejecting codec, still
yields content. -/
theorem c10_witness : (try_read_file [129]).isContent = true :=
  c10_total_failure_unreachable [129] (by decide)

end GatherData
